import Mathlib

/-!
# Datasource adapters of the `user` and `friend` modules

Shallow embedding of `modules/user/1module.go`: the closures registered as
`IMDatasource` / `BussDataSource` by the user module (`SystemUIDs`, `ChannelGet`,
`GetDevice`) and by the friend module (`HasData`, `Whitelist`, `GetFriends`), and the
projection `newChannelRespWithUserDetailResp`.

Go values are modelled as follows.

* A slice is `GoSlice`: either `nil` or a non-nil slice holding a list of elements.
  Capacity is not modelled (no function here reads it).
* A Go `(value, error)` result is a pair whose second component is `Option GoError`
  (`none` is the nil error).  A service may return a value together with an error.
* A pointer result that may be nil is an `Option`.
* Every adapter also returns the list of calls it made on its collaborators, in
  order, so that "without calling the service" is a statement about that list.
* The domain services, the device repository and the constants of other packages
  are parameters.
-/

namespace TangSeng

/-! ## Go slices -/

/-- Go slice value: the nil slice, or a non-nil slice with its elements. -/
inductive GoSlice (α : Type) where
  | nil : GoSlice α
  | mk (elems : List α) : GoSlice α
deriving DecidableEq, Repr

namespace GoSlice

variable {α : Type}

/-- Elements of a slice, in index order (the nil slice has none). -/
def toList : GoSlice α → List α
  | nil => []
  | mk xs => xs

/-- Go `len(s)`. -/
def len (s : GoSlice α) : Nat := s.toList.length

/-- Go `s == nil`. -/
def isNil : GoSlice α → Bool
  | nil => true
  | mk _ => false

/-- Go `make([]T, 0, n)`: a non-nil slice of length 0. -/
def make0 (_cap : Nat) : GoSlice α := mk []

/-- Go `append(s, x)`: always a non-nil slice. -/
def append (s : GoSlice α) (x : α) : GoSlice α := mk (s.toList ++ [x])

end GoSlice

/-! ## Errors -/

/-- Go `error` values that occur here: package-level error variables (compared by
identity, so by the variable they are) and errors built by `errors.New`, which hold
a message and nothing else a caller can branch on. -/
inductive GoError where
  | sentinel (name : String) : GoError
  | new (msg : String) : GoError
deriving DecidableEq, Repr

/-- The package variable `register.ErrDatasourceNotProcess`. -/
def ErrDatasourceNotProcess : GoError := GoError.sentinel "register.ErrDatasourceNotProcess"

/-- Go conversion `int64(x)` of an integer value: two's complement wrap to 64 bits. -/
def int64 (x : Int) : Int := (x + 2 ^ 63) % 2 ^ 64 - 2 ^ 63

/-- Go conversion `uint8(x)` of a non-negative integer value. -/
def uint8 (x : Nat) : Nat := x % 2 ^ 8

/-- A value of Go type `int` (at most 64 bits wide). -/
structure GoInt where
  val : Int
  lo : -(2 ^ 63) ≤ val
  hi : val < 2 ^ 63
deriving DecidableEq

/-! ## Dynamic values and maps -/

/-- A value stored in an `interface{}`. -/
inductive GoValue where
  | int (v : Int) : GoValue
  | str (s : String) : GoValue
deriving DecidableEq, Repr

/-- Go `map[string]interface{}` as its entries; each key occurs at most once in a
map built with `make` and `set`. -/
structure GoMap where
  entries : List (String × GoValue)
deriving DecidableEq, Repr

namespace GoMap

/-- Go `make(map[string]interface{})`. -/
def make : GoMap := ⟨[]⟩

/-- Go `m[k]` lookup. -/
def get (m : GoMap) (k : String) : Option GoValue :=
  (m.entries.find? (fun e => e.1 == k)).map (fun e => e.2)

/-- Go `m[k] = v`: overwrite the entry of `k`, or add one. -/
def set (m : GoMap) (k : String) (v : GoValue) : GoMap :=
  if m.entries.any (fun e => e.1 == k) then
    ⟨m.entries.map (fun e => if e.1 == k then (k, v) else e)⟩
  else
    ⟨m.entries ++ [(k, v)]⟩

/-- Keys of the map. -/
def keys (m : GoMap) : List String := m.entries.map (fun e => e.1)

end GoMap

/-! ## Records -/

/-- Element of the list returned by `GetUsersWithCategories`; only `UID` is read. -/
structure User where
  UID : String
deriving DecidableEq, Repr

/-- The record `UserDetailResp`.  Its declaration is outside this file: the fields
are the ones the projection reads.  `LastOffline` is converted with `int64(...)`
and is taken of type `int`; the seven fields stored in the `Extra` map are stored
as `interface{}` values and are kept as dynamic values. -/
structure UserDetailResp where
  UID : String
  Name : String
  Username : String
  Mute : Int
  Top : Int
  Receipt : Int
  Robot : Int
  Online : Int
  LastOffline : GoInt
  DeviceFlag : Int
  Category : String
  Follow : Int
  Remark : String
  Status : Int
  BeBlacklist : Int
  BeDeleted : Int
  Flame : Int
  FlameSecond : Int
  Sex : GoValue
  ChatPwdOn : GoValue
  ShortNo : GoValue
  SourceDesc : GoValue
  Vercode : GoValue
  Screenshot : GoValue
  RevokeRemind : GoValue
deriving DecidableEq

/-- The embedded field `Channel` of `model.ChannelResp`. -/
structure ChannelKey where
  ChannelID : String
  ChannelType : Nat
deriving DecidableEq, Repr

/-- The fields of `model.ChannelResp` that the projection assigns; the composite
literal `&model.ChannelResp{}` leaves every other field at its zero value. -/
structure ChannelResp where
  Channel : ChannelKey
  Name : String
  Username : String
  Logo : String
  Mute : Int
  Stick : Int
  Receipt : Int
  Robot : Int
  Online : Int
  LastOffline : Int
  DeviceFlag : Int
  Category : String
  Follow : Int
  Remark : String
  Status : Int
  BeBlacklist : Int
  BeDeleted : Int
  Flame : Int
  FlameSecond : Int
  Extra : GoMap
deriving DecidableEq, Repr

/-- Element of the list returned by `queryDevicesWithIds`. -/
structure Device where
  Id : Int
  UID : String
  DeviceID : String
  DeviceName : String
  DeviceModel : String
deriving DecidableEq, Repr

/-- The record `model.DeviceResp`. -/
structure DeviceResp where
  ID : Int
  UID : String
  DeviceID : String
  DeviceName : String
  DeviceModel : String
deriving DecidableEq, Repr

/-- Element of the list returned by the user service's `GetFriends`. -/
structure Friend where
  UID : String
  Remark : String
  IsAlone : Int
deriving DecidableEq, Repr

/-- The record `model.FriendResp`. -/
structure FriendResp where
  Remark : String
  ToUID : String
  IsAlone : Int
deriving DecidableEq, Repr

/-- The type `register.IMDatasourceType`, with the two values used here. -/
inductive IMDatasourceType where
  | IMDatasourceTypeNone : IMDatasourceType
  | IMDatasourceTypeWhitelist : IMDatasourceType
deriving DecidableEq, Repr

/-! ## Collaborators -/

/-- Constants declared in other files and packages. -/
structure Consts where
  ChannelTypePerson : Nat
  CategoryCustomerService : String
  CategorySystem : String

/-- Go `common.ChannelTypePerson.Uint8()`. -/
def Consts.personUint8 (c : Consts) : Nat := uint8 c.ChannelTypePerson

/-- The methods of `api.userService` called by the adapters. -/
structure UserService where
  GetUsersWithCategories : GoSlice String → GoSlice User × Option GoError
  GetUserDetail : String → String → Option UserDetailResp × Option GoError
  GetFriends : String → GoSlice Friend × Option GoError

/-- The method of `api.deviceDB` called by `GetDevice`. -/
structure DeviceDB where
  queryDevicesWithIds : GoSlice Int → GoSlice Device × Option GoError

/-- The `api` value that the closures of one module capture. -/
structure API where
  userService : UserService
  deviceDB : DeviceDB

/-- A call made by an adapter on a collaborator. -/
inductive Call where
  | GetUsersWithCategories (categories : GoSlice String) : Call
  | GetUserDetail (uid loginUID : String) : Call
  | GetFriends (uid : String) : Call
  | queryDevicesWithIds (ids : GoSlice Int) : Call
  | logError (msg channelID : String) : Call
deriving DecidableEq, Repr

/-- What an adapter returns: the Go result pair and the calls it made. -/
structure Ret (α : Type) where
  val : α
  err : Option GoError
  calls : List Call
deriving DecidableEq, Repr

/-! ## Response projection -/

/-- Go `fmt.Sprintf("users/%s/avatar", uid)` for a string `uid`. -/
def avatarPath (uid : String) : String := "users/" ++ uid ++ "/avatar"

/-- The function `newChannelRespWithUserDetailResp`. -/
def newChannelRespWithUserDetailResp (c : Consts) (user : UserDetailResp) : ChannelResp :=
  let extraMap := GoMap.make
  let extraMap := extraMap.set "sex" user.Sex
  let extraMap := extraMap.set "chat_pwd_on" user.ChatPwdOn
  let extraMap := extraMap.set "short_no" user.ShortNo
  let extraMap := extraMap.set "source_desc" user.SourceDesc
  let extraMap := extraMap.set "vercode" user.Vercode
  let extraMap := extraMap.set "screenshot" user.Screenshot
  let extraMap := extraMap.set "revoke_remind" user.RevokeRemind
  { Channel := { ChannelID := user.UID, ChannelType := uint8 c.ChannelTypePerson }
    Name := user.Name
    Username := user.Username
    Logo := avatarPath user.UID
    Mute := user.Mute
    Stick := user.Top
    Receipt := user.Receipt
    Robot := user.Robot
    Online := user.Online
    LastOffline := int64 user.LastOffline.val
    DeviceFlag := user.DeviceFlag
    Category := user.Category
    Follow := user.Follow
    Remark := user.Remark
    Status := user.Status
    BeBlacklist := user.BeBlacklist
    BeDeleted := user.BeDeleted
    Flame := user.Flame
    FlameSecond := user.FlameSecond
    Extra := extraMap }

/-! ## The user module -/

namespace UserModule

/-- The closure `IMDatasource.SystemUIDs` of the user module. -/
def SystemUIDs (c : Consts) (api : API) : Ret (GoSlice String) :=
  let categories := GoSlice.mk [c.CategoryCustomerService, c.CategorySystem]
  let calls := [Call.GetUsersWithCategories categories]
  match api.userService.GetUsersWithCategories categories with
  | (_, some err) => ⟨GoSlice.nil, some err, calls⟩
  | (users, none) =>
    let uids : GoSlice String := GoSlice.make0 users.len
    let uids :=
      if users.len > 0 then
        users.toList.foldl (fun uids user => uids.append user.UID) uids
      else uids
    ⟨uids, none, calls⟩

/-- The closure `BussDataSource.ChannelGet` of the user module. -/
def ChannelGet (c : Consts) (api : API) (channelID : String) (channelType : Nat)
    (loginUID : String) : Ret (Option ChannelResp) :=
  if channelType ≠ c.personUint8 then
    ⟨none, some ErrDatasourceNotProcess, []⟩
  else
    match api.userService.GetUserDetail channelID loginUID with
    | (_, some err) => ⟨none, some err, [Call.GetUserDetail channelID loginUID]⟩
    | (none, none) =>
      ⟨none, some (GoError.new "用户不存在！"),
        [Call.GetUserDetail channelID loginUID, Call.logError "用户不存在！" channelID]⟩
    | (some userDetailResp, none) =>
      ⟨some (newChannelRespWithUserDetailResp c userDetailResp), none,
        [Call.GetUserDetail channelID loginUID]⟩

/-- The closure `BussDataSource.GetDevice` of the user module. -/
def GetDevice (api : API) (ids : GoSlice Int) : Ret (GoSlice DeviceResp) :=
  let calls := [Call.queryDevicesWithIds ids]
  match api.deviceDB.queryDevicesWithIds ids with
  | (_, some err) => ⟨GoSlice.nil, some err, calls⟩
  | (list, none) =>
    if list.len = 0 then
      ⟨GoSlice.nil, none, calls⟩
    else
      let result : GoSlice DeviceResp := GoSlice.make0 list.len
      let result := list.toList.foldl
        (fun result device => result.append
          { ID := device.Id
            UID := device.UID
            DeviceID := device.DeviceID
            DeviceName := device.DeviceName
            DeviceModel := device.DeviceModel })
        result
      ⟨result, none, calls⟩

end UserModule

/-! ## The friend module -/

namespace FriendModule

/-- The closure `IMDatasource.HasData` of the friend module. -/
def HasData (c : Consts) (_channelID : String) (channelType : Nat) : IMDatasourceType :=
  if channelType = c.personUint8 then
    IMDatasourceType.IMDatasourceTypeWhitelist
  else
    IMDatasourceType.IMDatasourceTypeNone

/-- The closure `IMDatasource.Whitelist` of the friend module. -/
def Whitelist (api : API) (channelID : String) (_channelType : Nat) : Ret (GoSlice String) :=
  let calls := [Call.GetFriends channelID]
  match api.userService.GetFriends channelID with
  | (_, some err) => ⟨GoSlice.nil, some err, calls⟩
  | (friends, none) =>
    let firendUIDs : GoSlice String := GoSlice.make0 friends.len
    let firendUIDs :=
      if friends.len > 0 then
        friends.toList.foldl
          (fun firendUIDs friend =>
            if friend.IsAlone = 0 then firendUIDs.append friend.UID else firendUIDs)
          firendUIDs
      else firendUIDs
    ⟨firendUIDs, none, calls⟩

/-- The closure `BussDataSource.GetFriends` of the friend module. -/
def GetFriends (api : API) (uid : String) : Ret (GoSlice FriendResp) :=
  let calls := [Call.GetFriends uid]
  match api.userService.GetFriends uid with
  | (_, some err) => ⟨GoSlice.nil, some err, calls⟩
  | (friends, none) =>
    let list : GoSlice FriendResp := GoSlice.make0 friends.len
    let list := friends.toList.foldl
      (fun list friend => list.append
        { Remark := friend.Remark
          ToUID := friend.UID
          IsAlone := friend.IsAlone })
      list
    ⟨list, none, calls⟩

end FriendModule

/-! ## Concrete collaborators used to instantiate the theorems -/

/-- Constants with the person channel type 1. -/
def sampleConsts : Consts := ⟨1, "customerService", "system"⟩

/-- An upstream failure. -/
def dbDown : GoError := GoError.new "db: connection refused"

/-- Collaborators whose every call fails with `dbDown` (and still hands back data). -/
def failingAPI : API :=
  { userService :=
      { GetUsersWithCategories := fun _ => (GoSlice.mk [⟨"ghost"⟩], some dbDown)
        GetUserDetail := fun _ _ => (none, some dbDown)
        GetFriends := fun _ => (GoSlice.mk [⟨"ghost", "", 0⟩], some dbDown) }
    deviceDB :=
      { queryDevicesWithIds := fun _ => (GoSlice.mk [⟨7, "ghost", "d", "n", "m"⟩], some dbDown) } }

/-- A fully populated user detail record. -/
def sampleUser : UserDetailResp :=
  { UID := "u1", Name := "Ann", Username := "ann", Mute := 1, Top := 1, Receipt := 1,
    Robot := 0, Online := 1, LastOffline := ⟨1700000000, by decide, by decide⟩,
    DeviceFlag := 2, Category := "", Follow := 1, Remark := "A", Status := 1,
    BeBlacklist := 0, BeDeleted := 0, Flame := 1, FlameSecond := 30,
    Sex := GoValue.int 1, ChatPwdOn := GoValue.int 0, ShortNo := GoValue.str "10001",
    SourceDesc := GoValue.str "qr", Vercode := GoValue.str "v@1", Screenshot := GoValue.int 1,
    RevokeRemind := GoValue.int 1 }

/-- Collaborators over a small data set: user `u1` exists, any other UID has no
record; `u1` has one mutual and one one-sided friend and the mutual one again;
devices 1 and 2 exist. -/
def sampleAPI : API :=
  { userService :=
      { GetUsersWithCategories := fun _ => (GoSlice.mk [⟨"cs1"⟩, ⟨"sys1"⟩], none)
        GetUserDetail := fun uid _ => if uid = "u1" then (some sampleUser, none) else (none, none)
        GetFriends := fun uid =>
          if uid = "u1" then
            (GoSlice.mk [⟨"f1", "one", 0⟩, ⟨"f2", "two", 1⟩, ⟨"f3", "three", 0⟩], none)
          else (GoSlice.nil, none) }
    deviceDB :=
      { queryDevicesWithIds := fun ids =>
          (GoSlice.mk ((ids.toList.filter (fun i => i = 1 ∨ i = 2)).map
            (fun i => (⟨i, "u1", "dev", "phone", "m1"⟩ : Device))), none) } }

theorem foldl_append_eq_map {α β : Type} (f : α → β) (xs : List α) (ys : List β) :
    xs.foldl (fun (acc : GoSlice β) x => acc.append (f x)) (GoSlice.mk ys)
      = GoSlice.mk (ys ++ xs.map f) := by
  induction xs generalizing ys with
  | nil => simp
  | cons x xs ih =>
    rw [List.foldl_cons]
    show List.foldl _ (GoSlice.mk (ys ++ [f x])) xs = _
    rw [ih]
    simp

theorem foldl_append_if_eq_filter_map {α β : Type} (p : α → Prop) [DecidablePred p]
    (f : α → β) (xs : List α) (ys : List β) :
    xs.foldl (fun (acc : GoSlice β) x => if p x then acc.append (f x) else acc) (GoSlice.mk ys)
      = GoSlice.mk (ys ++ (xs.filter (fun x => decide (p x))).map f) := by
  induction xs generalizing ys with
  | nil => simp
  | cons x xs ih =>
    rw [List.foldl_cons]
    by_cases hp : p x
    · rw [if_pos hp]
      show List.foldl _ (GoSlice.mk (ys ++ [f x])) xs = _
      rw [ih]
      simp [hp]
    · rw [if_neg hp, ih]
      simp [hp]

theorem int64_of_goInt (x : GoInt) : int64 x.val = x.val := by
  have h1 := x.lo
  have h2 := x.hi
  unfold int64
  omega

/-- A successful, non-empty repository result: `GetDevice` returns the non-nil slice
of the converted records and no error. -/
theorem getDevice_of_nonempty (api : API) (ids : GoSlice Int) (D : GoSlice Device)
    (h : api.deviceDB.queryDevicesWithIds ids = (D, none)) (hD : D.len ≠ 0) :
    UserModule.GetDevice api ids
      = ⟨GoSlice.mk (D.toList.map (fun d =>
          (⟨d.Id, d.UID, d.DeviceID, d.DeviceName, d.DeviceModel⟩ : DeviceResp))), none,
        [Call.queryDevicesWithIds ids]⟩ := by
  simp only [UserModule.GetDevice, h, GoSlice.make0]
  rw [if_neg hD, foldl_append_eq_map]
  simp

/-- A successful repository result of length 0: `GetDevice` returns the nil slice and
no error. -/
theorem getDevice_of_empty (api : API) (ids : GoSlice Int) (D : GoSlice Device)
    (h : api.deviceDB.queryDevicesWithIds ids = (D, none)) (hD : D.len = 0) :
    UserModule.GetDevice api ids = ⟨GoSlice.nil, none, [Call.queryDevicesWithIds ids]⟩ := by
  simp [UserModule.GetDevice, h, hD]

/-! ## Theorems -/

/-- C1: for a channel type other than the person type, `ChannelGet` returns no
descriptor and `register.ErrDatasourceNotProcess`, makes no call at all (so none to
`GetUserDetail`), and returns the same whatever the collaborators are. -/
theorem channelGet_other_type_not_process (c : Consts) (api : API) (channelID loginUID : String)
    (channelType : Nat) (h : channelType ≠ c.personUint8) :
    UserModule.ChannelGet c api channelID channelType loginUID
        = ⟨none, some ErrDatasourceNotProcess, []⟩
      ∧ ∀ api2 : API, UserModule.ChannelGet c api2 channelID channelType loginUID
        = UserModule.ChannelGet c api channelID channelType loginUID := by
  simp [UserModule.ChannelGet, h]

theorem channelGet_other_type_not_process_witness :
    (2 : Nat) ≠ sampleConsts.personUint8
      ∧ UserModule.ChannelGet sampleConsts failingAPI "u1" 2 "u2"
        = ⟨none, some ErrDatasourceNotProcess, []⟩ :=
  ⟨by decide, (channelGet_other_type_not_process sampleConsts failingAPI "u1" "u2" 2 (by decide)).1⟩

/-- The entries of the `Extra` map built by the projection, in assignment order. -/
theorem extra_entries (c : Consts) (u : UserDetailResp) :
    (newChannelRespWithUserDetailResp c u).Extra.entries
      = [("sex", u.Sex), ("chat_pwd_on", u.ChatPwdOn), ("short_no", u.ShortNo),
         ("source_desc", u.SourceDesc), ("vercode", u.Vercode), ("screenshot", u.Screenshot),
         ("revoke_remind", u.RevokeRemind)] := by
  simp [newChannelRespWithUserDetailResp, GoMap.set, GoMap.make]

/-- C5: the `Extra` map of `newChannelRespWithUserDetailResp(u)` has exactly the seven
keys sex, chat_pwd_on, short_no, source_desc, vercode, screenshot, revoke_remind,
each once, and each key holds the corresponding field of `u`. -/
theorem extra_has_exactly_seven_keys (c : Consts) (u : UserDetailResp) :
    (∀ k : String, k ∈ (newChannelRespWithUserDetailResp c u).Extra.keys ↔
        k ∈ ["sex", "chat_pwd_on", "short_no", "source_desc", "vercode", "screenshot",
             "revoke_remind"])
      ∧ (newChannelRespWithUserDetailResp c u).Extra.keys.Nodup
      ∧ (newChannelRespWithUserDetailResp c u).Extra.keys.length = 7
      ∧ (newChannelRespWithUserDetailResp c u).Extra.get "sex" = some u.Sex
      ∧ (newChannelRespWithUserDetailResp c u).Extra.get "chat_pwd_on" = some u.ChatPwdOn
      ∧ (newChannelRespWithUserDetailResp c u).Extra.get "short_no" = some u.ShortNo
      ∧ (newChannelRespWithUserDetailResp c u).Extra.get "source_desc" = some u.SourceDesc
      ∧ (newChannelRespWithUserDetailResp c u).Extra.get "vercode" = some u.Vercode
      ∧ (newChannelRespWithUserDetailResp c u).Extra.get "screenshot" = some u.Screenshot
      ∧ (newChannelRespWithUserDetailResp c u).Extra.get "revoke_remind" = some u.RevokeRemind := by
  have he := extra_entries c u
  refine ⟨?_, ?_, ?_, ?_, ?_, ?_, ?_, ?_, ?_, ?_⟩
  · intro k
    simp [GoMap.keys, he]
  · simp [GoMap.keys, he]
  · simp [GoMap.keys, he]
  all_goals simp [GoMap.get, he, List.find?]

/-- C8: the friend module's `HasData` answers Whitelist exactly for the person channel
type and None for every other type; the channel ID plays no part, and the function
takes no service at all. -/
theorem hasData_whitelist_iff_person (c : Consts) (channelID : String) (channelType : Nat) :
    (FriendModule.HasData c channelID channelType = IMDatasourceType.IMDatasourceTypeWhitelist
        ↔ channelType = c.personUint8)
      ∧ (channelType ≠ c.personUint8 →
          FriendModule.HasData c channelID channelType = IMDatasourceType.IMDatasourceTypeNone)
      ∧ (∀ channelID2 : String,
          FriendModule.HasData c channelID2 channelType
            = FriendModule.HasData c channelID channelType) := by
  by_cases h : channelType = c.personUint8 <;> simp [FriendModule.HasData, h]

theorem hasData_whitelist_iff_person_witness :
    FriendModule.HasData sampleConsts "u1" 1 = IMDatasourceType.IMDatasourceTypeWhitelist
      ∧ FriendModule.HasData sampleConsts "g1" 2 = IMDatasourceType.IMDatasourceTypeNone :=
  ⟨(hasData_whitelist_iff_person sampleConsts "u1" 1).1.2 (by decide),
   (hasData_whitelist_iff_person sampleConsts "g1" 2).2.1 (by decide)⟩

/-- C9: on a person channel whose `GetUserDetail` call returns a record `u` and no
error, `ChannelGet` returns no error and `newChannelRespWithUserDetailResp(u)`, whose
fields are: channel ID `u.UID`, channel type person (the requested type), logo
`users/<UID>/avatar`, `Stick` from `u.Top`, `LastOffline` from `u.LastOffline`, and
the remaining fields from the fields of `u` of the same name. -/
theorem channelGet_person_projects_user (c : Consts) (api : API) (channelID loginUID : String)
    (channelType : Nat) (u : UserDetailResp) (ht : channelType = c.personUint8)
    (h : api.userService.GetUserDetail channelID loginUID = (some u, none)) :
    UserModule.ChannelGet c api channelID channelType loginUID
        = ⟨some (newChannelRespWithUserDetailResp c u), none,
            [Call.GetUserDetail channelID loginUID]⟩
      ∧ (newChannelRespWithUserDetailResp c u).Channel.ChannelID = u.UID
      ∧ (newChannelRespWithUserDetailResp c u).Channel.ChannelType = c.personUint8
      ∧ (newChannelRespWithUserDetailResp c u).Channel.ChannelType = channelType
      ∧ (newChannelRespWithUserDetailResp c u).Logo = "users/" ++ u.UID ++ "/avatar"
      ∧ (newChannelRespWithUserDetailResp c u).Stick = u.Top
      ∧ (newChannelRespWithUserDetailResp c u).LastOffline = u.LastOffline.val
      ∧ (newChannelRespWithUserDetailResp c u).Name = u.Name
      ∧ (newChannelRespWithUserDetailResp c u).Username = u.Username
      ∧ (newChannelRespWithUserDetailResp c u).Mute = u.Mute
      ∧ (newChannelRespWithUserDetailResp c u).Receipt = u.Receipt
      ∧ (newChannelRespWithUserDetailResp c u).Robot = u.Robot
      ∧ (newChannelRespWithUserDetailResp c u).Online = u.Online
      ∧ (newChannelRespWithUserDetailResp c u).DeviceFlag = u.DeviceFlag
      ∧ (newChannelRespWithUserDetailResp c u).Category = u.Category
      ∧ (newChannelRespWithUserDetailResp c u).Follow = u.Follow
      ∧ (newChannelRespWithUserDetailResp c u).Remark = u.Remark
      ∧ (newChannelRespWithUserDetailResp c u).Status = u.Status
      ∧ (newChannelRespWithUserDetailResp c u).BeBlacklist = u.BeBlacklist
      ∧ (newChannelRespWithUserDetailResp c u).BeDeleted = u.BeDeleted
      ∧ (newChannelRespWithUserDetailResp c u).Flame = u.Flame
      ∧ (newChannelRespWithUserDetailResp c u).FlameSecond = u.FlameSecond := by
  subst ht
  refine ⟨?_, rfl, rfl, rfl, rfl, rfl, int64_of_goInt u.LastOffline, rfl, rfl, rfl, rfl, rfl,
    rfl, rfl, rfl, rfl, rfl, rfl, rfl, rfl, rfl, rfl⟩
  simp [UserModule.ChannelGet, h]

theorem channelGet_person_projects_user_witness :
    (1 : Nat) = sampleConsts.personUint8
      ∧ sampleAPI.userService.GetUserDetail "u1" "u2" = (some sampleUser, none)
      ∧ UserModule.ChannelGet sampleConsts sampleAPI "u1" 1 "u2"
        = ⟨some (newChannelRespWithUserDetailResp sampleConsts sampleUser), none,
            [Call.GetUserDetail "u1" "u2"]⟩
      ∧ (newChannelRespWithUserDetailResp sampleConsts sampleUser).Logo = "users/u1/avatar" :=
  ⟨by decide, by decide,
   (channelGet_person_projects_user sampleConsts sampleAPI "u1" "u2" 1 sampleUser
      (by decide) (by decide)).1,
   by decide⟩

/-- C3: when the user service's `GetFriends` returns the list `L` and no error,
`Whitelist` returns the UIDs of the entries of `L` with `IsAlone` 0, in order, and
`GetFriends` returns one descriptor per entry of `L`, in order, one-sided entries
included, with `ToUID`, `Remark` and `IsAlone` copied; the whitelist is a
subsequence of the listed `ToUID`s. -/
theorem whitelist_filters_and_getFriends_lists (api : API) (uid : String) (channelType : Nat)
    (L : GoSlice Friend) (h : api.userService.GetFriends uid = (L, none)) :
    FriendModule.Whitelist api uid channelType
        = ⟨GoSlice.mk ((L.toList.filter (fun f => decide (f.IsAlone = 0))).map (fun f => f.UID)),
            none, [Call.GetFriends uid]⟩
      ∧ FriendModule.GetFriends api uid
        = ⟨GoSlice.mk (L.toList.map (fun f => (⟨f.Remark, f.UID, f.IsAlone⟩ : FriendResp))),
            none, [Call.GetFriends uid]⟩
      ∧ (∀ x : String, x ∈ (FriendModule.Whitelist api uid channelType).val.toList →
          ∃ f : Friend, f ∈ L.toList ∧ f.IsAlone = 0 ∧ f.UID = x)
      ∧ (∀ f : Friend, f ∈ L.toList → f.IsAlone = 0 →
          f.UID ∈ (FriendModule.Whitelist api uid channelType).val.toList)
      ∧ (FriendModule.GetFriends api uid).val.len = L.len
      ∧ List.Sublist (FriendModule.Whitelist api uid channelType).val.toList
          ((FriendModule.GetFriends api uid).val.toList.map (fun r => r.ToUID)) := by
  have hW : FriendModule.Whitelist api uid channelType
      = ⟨GoSlice.mk ((L.toList.filter (fun f => decide (f.IsAlone = 0))).map (fun f => f.UID)),
          none, [Call.GetFriends uid]⟩ := by
    simp only [FriendModule.Whitelist, h, GoSlice.make0]
    by_cases hl : L.len > 0
    · rw [if_pos hl, foldl_append_if_eq_filter_map]
      simp
    · rw [if_neg hl]
      have : L.toList = [] := by
        simp only [GoSlice.len] at hl
        exact List.length_eq_zero.mp (by omega)
      simp [this]
  have hG : FriendModule.GetFriends api uid
      = ⟨GoSlice.mk (L.toList.map (fun f => (⟨f.Remark, f.UID, f.IsAlone⟩ : FriendResp))),
          none, [Call.GetFriends uid]⟩ := by
    simp only [FriendModule.GetFriends, h, GoSlice.make0]
    rw [foldl_append_eq_map]
    simp
  refine ⟨hW, hG, ?_, ?_, ?_, ?_⟩
  · intro x hx
    rw [hW] at hx
    simp only [GoSlice.toList, List.mem_map, List.mem_filter, decide_eq_true_eq] at hx
    obtain ⟨f, ⟨hf, h0⟩, hfx⟩ := hx
    exact ⟨f, hf, h0, hfx⟩
  · intro f hf h0
    rw [hW]
    simp only [GoSlice.toList, List.mem_map, List.mem_filter, decide_eq_true_eq]
    exact ⟨f, ⟨hf, h0⟩, rfl⟩
  · rw [hG]
    simp [GoSlice.len, GoSlice.toList]
  · rw [hW, hG]
    simp only [GoSlice.toList, List.map_map]
    exact (List.filter_sublist L.toList).map _

theorem whitelist_filters_and_getFriends_lists_witness :
    sampleAPI.userService.GetFriends "u1"
        = (GoSlice.mk [⟨"f1", "one", 0⟩, ⟨"f2", "two", 1⟩, ⟨"f3", "three", 0⟩], none)
      ∧ (FriendModule.Whitelist sampleAPI "u1" 1).val = GoSlice.mk ["f1", "f3"]
      ∧ (FriendModule.GetFriends sampleAPI "u1").val
        = GoSlice.mk [⟨"one", "f1", 0⟩, ⟨"two", "f2", 1⟩, ⟨"three", "f3", 0⟩] :=
  have h := whitelist_filters_and_getFriends_lists sampleAPI "u1" 1
    (GoSlice.mk [⟨"f1", "one", 0⟩, ⟨"f2", "two", 1⟩, ⟨"f3", "three", 0⟩]) (by decide)
  ⟨by decide, by rw [h.1]; decide, by rw [h.2.1]; decide⟩

/-- C4 as stated fails: the repository succeeds with an empty, non-nil list, and
`GetDevice` returns the nil slice, not the non-nil empty slice; a successful
non-empty result is a non-nil slice. -/
theorem getDevice_empty_result_is_not_a_non_nil_slice :
    sampleAPI.deviceDB.queryDevicesWithIds (GoSlice.mk []) = (GoSlice.mk [], none)
      ∧ (UserModule.GetDevice sampleAPI (GoSlice.mk [])).err = none
      ∧ (UserModule.GetDevice sampleAPI (GoSlice.mk [])).val.isNil = true
      ∧ (UserModule.GetDevice sampleAPI (GoSlice.mk [])).val ≠ GoSlice.mk []
      ∧ (UserModule.GetDevice sampleAPI (GoSlice.mk [1])).err = none
      ∧ (UserModule.GetDevice sampleAPI (GoSlice.mk [1])).val.isNil = false := by
  decide

/-- C4 amended: when `queryDevicesWithIds` succeeds, `GetDevice` returns no error;
for a result of length 0 (nil or empty) it returns the nil slice, which has length 0
and no element, after one repository call; for a non-empty result it returns a
non-nil slice.  So the outcome is the nil slice exactly when there are no devices. -/
theorem getDevice_empty_result_is_nil (api : API) (ids : GoSlice Int) (D : GoSlice Device)
    (h : api.deviceDB.queryDevicesWithIds ids = (D, none)) :
    (UserModule.GetDevice api ids).err = none
      ∧ (D.len = 0 →
          UserModule.GetDevice api ids = ⟨GoSlice.nil, none, [Call.queryDevicesWithIds ids]⟩
            ∧ (UserModule.GetDevice api ids).val.len = 0
            ∧ (UserModule.GetDevice api ids).val.toList = [])
      ∧ (D.len ≠ 0 →
          (UserModule.GetDevice api ids).val.isNil = false
            ∧ (UserModule.GetDevice api ids).val.len = D.len)
      ∧ ((UserModule.GetDevice api ids).val.isNil = true ↔ D.len = 0) := by
  by_cases hD : D.len = 0
  · have hr := getDevice_of_empty api ids D h hD
    rw [hr]
    exact ⟨rfl, fun _ => ⟨rfl, rfl, rfl⟩, fun hn => absurd hD hn, fun _ => hD, fun _ => rfl⟩
  · have hr := getDevice_of_nonempty api ids D h hD
    rw [hr]
    refine ⟨rfl, fun h0 => absurd h0 hD, fun _ => ⟨rfl, ?_⟩, ?_, fun h0 => absurd h0 hD⟩
    · simp [GoSlice.len, GoSlice.toList]
    · intro hn
      simp [GoSlice.isNil] at hn

theorem getDevice_empty_result_is_nil_witness :
    sampleAPI.deviceDB.queryDevicesWithIds (GoSlice.mk [5, 6]) = (GoSlice.mk [], none)
      ∧ UserModule.GetDevice sampleAPI (GoSlice.mk [5, 6])
        = ⟨GoSlice.nil, none, [Call.queryDevicesWithIds (GoSlice.mk [5, 6])]⟩
      ∧ sampleAPI.deviceDB.queryDevicesWithIds (GoSlice.mk [2, 1])
        = (GoSlice.mk [⟨2, "u1", "dev", "phone", "m1"⟩, ⟨1, "u1", "dev", "phone", "m1"⟩], none)
      ∧ (UserModule.GetDevice sampleAPI (GoSlice.mk [2, 1])).val.isNil = false :=
  ⟨by decide,
   ((getDevice_empty_result_is_nil sampleAPI (GoSlice.mk [5, 6]) (GoSlice.mk [])
      (by decide)).2.1 (by decide)).1,
   by decide,
   ((getDevice_empty_result_is_nil sampleAPI (GoSlice.mk [2, 1])
      (GoSlice.mk [⟨2, "u1", "dev", "phone", "m1"⟩, ⟨1, "u1", "dev", "phone", "m1"⟩])
      (by decide)).2.2.1 (by decide)).1⟩

/-- C6: each of the five service-backed adapters, when its service call returns an
error `e` (whatever value comes with it), returns that same `e` and no data: the nil
slice, or no descriptor. -/
theorem adapters_return_the_service_error (c : Consts) (api : API) (e : GoError) :
    (∀ users : GoSlice User,
        api.userService.GetUsersWithCategories
            (GoSlice.mk [c.CategoryCustomerService, c.CategorySystem]) = (users, some e) →
        (UserModule.SystemUIDs c api).val = GoSlice.nil
          ∧ (UserModule.SystemUIDs c api).err = some e)
      ∧ (∀ (channelID loginUID : String) (d : Option UserDetailResp),
          api.userService.GetUserDetail channelID loginUID = (d, some e) →
          (UserModule.ChannelGet c api channelID c.personUint8 loginUID).val = none
            ∧ (UserModule.ChannelGet c api channelID c.personUint8 loginUID).err = some e)
      ∧ (∀ (ids : GoSlice Int) (list : GoSlice Device),
          api.deviceDB.queryDevicesWithIds ids = (list, some e) →
          (UserModule.GetDevice api ids).val = GoSlice.nil
            ∧ (UserModule.GetDevice api ids).err = some e)
      ∧ (∀ (channelID : String) (channelType : Nat) (friends : GoSlice Friend),
          api.userService.GetFriends channelID = (friends, some e) →
          (FriendModule.Whitelist api channelID channelType).val = GoSlice.nil
            ∧ (FriendModule.Whitelist api channelID channelType).err = some e)
      ∧ (∀ (uid : String) (friends : GoSlice Friend),
          api.userService.GetFriends uid = (friends, some e) →
          (FriendModule.GetFriends api uid).val = GoSlice.nil
            ∧ (FriendModule.GetFriends api uid).err = some e) := by
  refine ⟨?_, ?_, ?_, ?_, ?_⟩
  · intro users h
    simp [UserModule.SystemUIDs, h]
  · intro channelID loginUID d h
    simp [UserModule.ChannelGet, h]
  · intro ids list h
    simp [UserModule.GetDevice, h]
  · intro channelID channelType friends h
    simp [FriendModule.Whitelist, h]
  · intro uid friends h
    simp [FriendModule.GetFriends, h]

theorem adapters_return_the_service_error_witness :
    ((UserModule.SystemUIDs sampleConsts failingAPI).val = GoSlice.nil
        ∧ (UserModule.SystemUIDs sampleConsts failingAPI).err = some dbDown)
      ∧ ((UserModule.ChannelGet sampleConsts failingAPI "u1" 1 "u2").val = none
        ∧ (UserModule.ChannelGet sampleConsts failingAPI "u1" 1 "u2").err = some dbDown)
      ∧ ((UserModule.GetDevice failingAPI (GoSlice.mk [7])).val = GoSlice.nil
        ∧ (UserModule.GetDevice failingAPI (GoSlice.mk [7])).err = some dbDown)
      ∧ ((FriendModule.Whitelist failingAPI "u1" 1).val = GoSlice.nil
        ∧ (FriendModule.Whitelist failingAPI "u1" 1).err = some dbDown)
      ∧ ((FriendModule.GetFriends failingAPI "u1").val = GoSlice.nil
        ∧ (FriendModule.GetFriends failingAPI "u1").err = some dbDown) :=
  have h := adapters_return_the_service_error sampleConsts failingAPI dbDown
  ⟨h.1 (GoSlice.mk [⟨"ghost"⟩]) (by decide),
   h.2.1 "u1" "u2" none (by decide),
   h.2.2.1 (GoSlice.mk [7]) (GoSlice.mk [⟨7, "ghost", "d", "n", "m"⟩]) (by decide),
   h.2.2.2.1 "u1" 1 (GoSlice.mk [⟨"ghost", "", 0⟩]) (by decide),
   h.2.2.2.2 "u1" (GoSlice.mk [⟨"ghost", "", 0⟩]) (by decide)⟩

/-- C7: `SystemUIDs` makes exactly one call, `GetUsersWithCategories` with the two
categories customer-service and system; when that call returns the list `U` and no
error, it returns no error and the non-nil slice of the UIDs of `U`, one per user,
in order, so every UID in the result is the UID of a user of `U`. -/
theorem systemUIDs_lists_the_two_categories (c : Consts) (api : API) :
    (UserModule.SystemUIDs c api).calls
        = [Call.GetUsersWithCategories
            (GoSlice.mk [c.CategoryCustomerService, c.CategorySystem])]
      ∧ ∀ U : GoSlice User,
          api.userService.GetUsersWithCategories
              (GoSlice.mk [c.CategoryCustomerService, c.CategorySystem]) = (U, none) →
          (UserModule.SystemUIDs c api).err = none
            ∧ (UserModule.SystemUIDs c api).val = GoSlice.mk (U.toList.map (fun u => u.UID))
            ∧ (UserModule.SystemUIDs c api).val.isNil = false
            ∧ (UserModule.SystemUIDs c api).val.len = U.len
            ∧ (∀ uid : String, uid ∈ (UserModule.SystemUIDs c api).val.toList →
                ∃ u : User, u ∈ U.toList ∧ u.UID = uid) := by
  constructor
  · simp only [UserModule.SystemUIDs]
    split <;> rfl
  · intro U h
    have hv : UserModule.SystemUIDs c api
        = ⟨GoSlice.mk (U.toList.map (fun u => u.UID)), none,
            [Call.GetUsersWithCategories
              (GoSlice.mk [c.CategoryCustomerService, c.CategorySystem])]⟩ := by
      simp only [UserModule.SystemUIDs, h, GoSlice.make0]
      by_cases hl : U.len > 0
      · rw [if_pos hl, foldl_append_eq_map]
        simp
      · rw [if_neg hl]
        have : U.toList = [] := by
          simp only [GoSlice.len] at hl
          exact List.length_eq_zero.mp (by omega)
        simp [this]
    rw [hv]
    refine ⟨rfl, rfl, rfl, ?_, ?_⟩
    · simp [GoSlice.len, GoSlice.toList]
    · intro uid huid
      simp only [GoSlice.toList, List.mem_map] at huid
      exact huid

theorem systemUIDs_lists_the_two_categories_witness :
    sampleAPI.userService.GetUsersWithCategories (GoSlice.mk ["customerService", "system"])
        = (GoSlice.mk [⟨"cs1"⟩, ⟨"sys1"⟩], none)
      ∧ (UserModule.SystemUIDs sampleConsts sampleAPI).val = GoSlice.mk ["cs1", "sys1"] :=
  ⟨by decide,
   ((systemUIDs_lists_the_two_categories sampleConsts sampleAPI).2
      (GoSlice.mk [⟨"cs1"⟩, ⟨"sys1"⟩]) (by decide)).2.1⟩

/-- C10: when `queryDevicesWithIds` returns a non-empty list `D` and no error,
`GetDevice` returns no error and one descriptor per record of `D`, in order, with
`ID`, `UID`, `DeviceID`, `DeviceName` and `DeviceModel` copied; every descriptor of the
result comes from a record of `D`, so a requested ID absent from `D` gets none. -/
theorem getDevice_maps_the_returned_records (api : API) (ids : GoSlice Int) (D : GoSlice Device)
    (h : api.deviceDB.queryDevicesWithIds ids = (D, none)) (hD : D.len ≠ 0) :
    (UserModule.GetDevice api ids).err = none
      ∧ (UserModule.GetDevice api ids).val
        = GoSlice.mk (D.toList.map (fun d =>
            (⟨d.Id, d.UID, d.DeviceID, d.DeviceName, d.DeviceModel⟩ : DeviceResp)))
      ∧ (UserModule.GetDevice api ids).val.len = D.len
      ∧ (∀ r : DeviceResp, r ∈ (UserModule.GetDevice api ids).val.toList →
          ∃ d : Device, d ∈ D.toList ∧ r.ID = d.Id ∧ r.UID = d.UID ∧ r.DeviceID = d.DeviceID
            ∧ r.DeviceName = d.DeviceName ∧ r.DeviceModel = d.DeviceModel)
      ∧ (∀ id : Int, (∀ d : Device, d ∈ D.toList → d.Id ≠ id) →
          ∀ r : DeviceResp, r ∈ (UserModule.GetDevice api ids).val.toList → r.ID ≠ id)
      ∧ (UserModule.GetDevice api ids).calls = [Call.queryDevicesWithIds ids] := by
  have hv : UserModule.GetDevice api ids
      = ⟨GoSlice.mk (D.toList.map (fun d =>
            (⟨d.Id, d.UID, d.DeviceID, d.DeviceName, d.DeviceModel⟩ : DeviceResp))), none,
          [Call.queryDevicesWithIds ids]⟩ := by
    simp only [UserModule.GetDevice, h, GoSlice.make0]
    rw [if_neg hD, foldl_append_eq_map]
    simp
  rw [hv]
  refine ⟨rfl, rfl, ?_, ?_, ?_, rfl⟩
  · simp [GoSlice.len, GoSlice.toList]
  · intro r hr
    simp only [GoSlice.toList, List.mem_map] at hr
    obtain ⟨d, hd, rfl⟩ := hr
    exact ⟨d, hd, rfl, rfl, rfl, rfl, rfl⟩
  · intro id hid r hr
    simp only [GoSlice.toList, List.mem_map] at hr
    obtain ⟨d, hd, rfl⟩ := hr
    exact hid d hd

theorem getDevice_maps_the_returned_records_witness :
    sampleAPI.deviceDB.queryDevicesWithIds (GoSlice.mk [2, 9, 1])
        = (GoSlice.mk [⟨2, "u1", "dev", "phone", "m1"⟩, ⟨1, "u1", "dev", "phone", "m1"⟩], none)
      ∧ (GoSlice.mk [⟨2, "u1", "dev", "phone", "m1"⟩, ⟨1, "u1", "dev", "phone", "m1"⟩]
          : GoSlice Device).len ≠ 0
      ∧ (UserModule.GetDevice sampleAPI (GoSlice.mk [2, 9, 1])).val
        = GoSlice.mk [⟨2, "u1", "dev", "phone", "m1"⟩, ⟨1, "u1", "dev", "phone", "m1"⟩] :=
  have h := getDevice_maps_the_returned_records sampleAPI (GoSlice.mk [2, 9, 1])
    (GoSlice.mk [⟨2, "u1", "dev", "phone", "m1"⟩, ⟨1, "u1", "dev", "phone", "m1"⟩])
    (by decide) (by decide)
  ⟨by decide, by decide, by rw [h.2.1]; decide⟩

end TangSeng
